import Mathlib

/-!
Shallow embedding of the gagara TypeScript client (`src/client.ts`,
`src/dataset.ts`, `src/types.ts`).

The client is a thin HTTP wrapper: every operation builds one request,
hands it to a pluggable transport (`fetch`), and maps the response status
onto typed errors.  We model:

* JSON values as an inductive `Json`; a response body that is not valid
  JSON (so that `res.json()` would throw) is `none`;
* the transport as a function `Request → Except Unit Response`, where
  `Except.error` stands for a rejected fetch promise (network failure or
  timeout abort);
* each operation as a pure function returning its result together with
  the list of requests it issued (the network trace);
* the thrown error objects as a record `GagaraErrorData` carrying the
  JavaScript class name, message, status and optional parsed body,
  mirroring the class hierarchy in `types.ts`;
* the timeout-timer discipline of the private `#request` helpers as an
  explicit timer-state transformer (`requestWithTimer`).
-/

namespace Gagara

/-- JSON values, as produced by `res.json()` / consumed by `JSON.stringify`. -/
inductive Json where
  | null
  | bool (b : Bool)
  | num (n : Int)
  | str (s : String)
  | arr (elems : List Json)
  | obj (fields : List (String × Json))

/-- JavaScript property access `j.key`: `none` models `undefined`. -/
def Json.getField : Json → String → Option Json
  | Json.obj fields, key => fields.lookup key
  | _, _ => none

mutual

/-- JavaScript string coercion `String(v)` of a JSON value, as performed by
template literals and by the `Error` constructor on its message argument. -/
def Json.toMessage : Json → String
  | Json.null => "null"
  | Json.bool true => "true"
  | Json.bool false => "false"
  | Json.num n => toString n
  | Json.str s => s
  | Json.arr elems => String.intercalate "," (Json.toMessageList elems)
  | Json.obj _ => "[object Object]"

def Json.toMessageList : List Json → List String
  | [] => []
  | j :: js => Json.toMessage j :: Json.toMessageList js

end

/-- JavaScript string coercion where `none` models `undefined`. -/
def jsToString : Option Json → String
  | none => "undefined"
  | some j => Json.toMessage j

/-- Optional-chain field access `body?.key` on a possibly-undefined value. -/
def jsField (body : Option Json) (key : String) : Option Json :=
  body.bind (fun j => Json.getField j key)

/-- `body?.error ?? dflt`, coerced to a message string: the default is used
when the body is absent, has no `error` field, or that field is `null`
(`??` falls through on both `undefined` and `null`). -/
def errMessage (body : Option Json) (dflt : String) : String :=
  match jsField body "error" with
  | some Json.null => dflt
  | some v => Json.toMessage v
  | none => dflt

/-- Data of a thrown error object: the class hierarchy of `types.ts`
flattened into a record, `name` holding the JavaScript class name. -/
structure GagaraErrorData where
  name : String
  message : String
  status : Nat
  body : Option Json

/-- `new GagaraError(message, status, body)` (`types.ts`). -/
def mkGagaraError (message : String) (status : Nat) (body : Option Json) : GagaraErrorData :=
  { name := "GagaraError", message := message, status := status, body := body }

/-- `new DatasetNotFoundError(token)` (`types.ts`): calls
`super(` followed by the template `Dataset not found: ${token}` and `404)`
— the body argument is omitted — then overwrites `name`. -/
def mkDatasetNotFoundError (token : String) : GagaraErrorData :=
  { mkGagaraError ("Dataset not found: " ++ token) 404 none with
    name := "DatasetNotFoundError" }

/-- `new QueryError(message, body)` (`types.ts`): calls
`super(message, 400, body)` — the status is the constant 400 — then
overwrites `name`. -/
def mkQueryError (message : String) (body : Option Json) : GagaraErrorData :=
  { mkGagaraError message 400 body with name := "QueryError" }

/-- An HTTP response; `body = none` models a body on which `res.json()`
throws (non-JSON or empty). -/
structure Response where
  status : Nat
  body : Option Json

/-- `res.ok`: status in the inclusive range 200–299. -/
def Response.ok (res : Response) : Bool :=
  decide (200 ≤ res.status) && decide (res.status < 300)

/-- Request bodies: absent, `JSON.stringify` of a value, or raw bytes. -/
inductive RequestBody where
  | empty
  | json (value : Json)
  | bytes (data : List Nat)

/-- The request handed to the transport. -/
structure Request where
  url : String
  method : String
  headers : List (String × String)
  body : RequestBody

/-- The transport: a fetch either resolves to a `Response` or rejects
(network failure, or the timeout controller aborting the call). -/
abbrev Fetch := Request → Except Unit Response

/-- How an operation can fail: a typed error thrown by the client itself,
a rejected fetch propagating through, or `res.json()` throwing on a
success-path body. -/
inductive Failure where
  | gagara (e : GagaraErrorData)
  | transport
  | jsonParse

/-- The typed error thrown by an operation, if any. -/
def errOf {α : Type} : Except Failure α → Option GagaraErrorData
  | Except.error (Failure.gagara e) => some e
  | _ => none

/-- `#parseError(res)`: `try { return await res.json() } catch { return undefined }`. -/
def parseError (res : Response) : Option Json :=
  res.body

/-- A dataset handle: token plus the configuration captured at construction
(`dataset.ts`). -/
structure Dataset where
  token : String
  baseUrl : String
  fetchFn : Fetch
  timeout : Nat

/-- The request built by `Dataset.query` / `Dataset.queryFull`:
`POST {baseUrl}/query` with a bearer header and body `{sql}`. -/
def queryRequest (ds : Dataset) (sql : String) : Request :=
  { url := ds.baseUrl ++ "/query"
    method := "POST"
    headers := [("Content-Type", "application/json"),
                ("Authorization", "Bearer " ++ ds.token)]
    body := RequestBody.json (Json.obj [("sql", Json.str sql)]) }

/-- `Dataset.query(sql)` (`dataset.ts`): on a rejected fetch the rejection
propagates; on non-2xx the error body is parsed, then 404 maps to
`DatasetNotFoundError(token)` and anything else to
`QueryError(body?.error ?? 'Query failed', body)`; on 2xx the parsed
body's `rows` field is returned.  The second component is the network
trace: the single request issued. -/
def Dataset.query (ds : Dataset) (sql : String) :
    Except Failure (Option Json) × List Request :=
  (match ds.fetchFn (queryRequest ds sql) with
   | Except.error _ => Except.error Failure.transport
   | Except.ok res =>
     if !res.ok then
       let body := parseError res
       if res.status = 404 then
         Except.error (Failure.gagara (mkDatasetNotFoundError ds.token))
       else
         Except.error (Failure.gagara (mkQueryError (errMessage body "Query failed") body))
     else
       match res.body with
       | none => Except.error Failure.jsonParse
       | some data => Except.ok (Json.getField data "rows"),
   [queryRequest ds sql])

/-- `Dataset.queryFull(sql)` (`dataset.ts`): identical request and error
handling to `query`, but on 2xx the whole parsed body is returned. -/
def Dataset.queryFull (ds : Dataset) (sql : String) :
    Except Failure Json × List Request :=
  (match ds.fetchFn (queryRequest ds sql) with
   | Except.error _ => Except.error Failure.transport
   | Except.ok res =>
     if !res.ok then
       let body := parseError res
       if res.status = 404 then
         Except.error (Failure.gagara (mkDatasetNotFoundError ds.token))
       else
         Except.error (Failure.gagara (mkQueryError (errMessage body "Query failed") body))
     else
       match res.body with
       | none => Except.error Failure.jsonParse
       | some data => Except.ok data,
   [queryRequest ds sql])

/-- The request built by `Dataset.schema`: `GET {baseUrl}/catalog/{token}/schema`. -/
def schemaRequest (ds : Dataset) : Request :=
  { url := ds.baseUrl ++ "/catalog/" ++ ds.token ++ "/schema"
    method := "GET", headers := [], body := RequestBody.empty }

/-- `Dataset.schema()` (`dataset.ts`): 404 maps to
`DatasetNotFoundError(token)`, other non-2xx to
`GagaraError('Failed to get schema', res.status)`; on 2xx the parsed
body's `columns` field is returned. -/
def Dataset.schema (ds : Dataset) :
    Except Failure (Option Json) × List Request :=
  (match ds.fetchFn (schemaRequest ds) with
   | Except.error _ => Except.error Failure.transport
   | Except.ok res =>
     if !res.ok then
       if res.status = 404 then
         Except.error (Failure.gagara (mkDatasetNotFoundError ds.token))
       else
         Except.error (Failure.gagara (mkGagaraError "Failed to get schema" res.status none))
     else
       match res.body with
       | none => Except.error Failure.jsonParse
       | some data => Except.ok (Json.getField data "columns"),
   [schemaRequest ds])

/-- The request built by `Dataset.meta`: `GET {baseUrl}/catalog/{token}/meta`. -/
def metaRequest (ds : Dataset) : Request :=
  { url := ds.baseUrl ++ "/catalog/" ++ ds.token ++ "/meta"
    method := "GET", headers := [], body := RequestBody.empty }

/-- `Dataset.meta()` (`dataset.ts`): same error mapping as `schema` with
message `'Failed to get metadata'`; on 2xx the whole parsed body is
returned. -/
def Dataset.meta (ds : Dataset) :
    Except Failure Json × List Request :=
  (match ds.fetchFn (metaRequest ds) with
   | Except.error _ => Except.error Failure.transport
   | Except.ok res =>
     if !res.ok then
       if res.status = 404 then
         Except.error (Failure.gagara (mkDatasetNotFoundError ds.token))
       else
         Except.error (Failure.gagara (mkGagaraError "Failed to get metadata" res.status none))
     else
       match res.body with
       | none => Except.error Failure.jsonParse
       | some data => Except.ok data,
   [metaRequest ds])

/-- The request built by `Dataset.isPresent`:
`GET {baseUrl}/catalog/{token}/is-present`. -/
def isPresentRequest (ds : Dataset) : Request :=
  { url := ds.baseUrl ++ "/catalog/" ++ ds.token ++ "/is-present"
    method := "GET", headers := [], body := RequestBody.empty }

/-- `Dataset.isPresent()` (`dataset.ts`): any non-2xx — 404 included, there
is no 404 branch — throws `GagaraError('Failed to check presence',
res.status)`; on 2xx the parsed body's `isPresent` field is returned. -/
def Dataset.isPresent (ds : Dataset) :
    Except Failure (Option Json) × List Request :=
  (match ds.fetchFn (isPresentRequest ds) with
   | Except.error _ => Except.error Failure.transport
   | Except.ok res =>
     if !res.ok then
       Except.error (Failure.gagara (mkGagaraError "Failed to check presence" res.status none))
     else
       match res.body with
       | none => Except.error Failure.jsonParse
       | some data => Except.ok (Json.getField data "isPresent"),
   [isPresentRequest ds])

/-- The request built by `Dataset.rename`:
`POST {baseUrl}/catalog/{token}/rename` with body `{new_name}`. -/
def renameRequest (ds : Dataset) (newName : String) : Request :=
  { url := ds.baseUrl ++ "/catalog/" ++ ds.token ++ "/rename"
    method := "POST"
    headers := [("Content-Type", "application/json")]
    body := RequestBody.json (Json.obj [("new_name", Json.str newName)]) }

/-- `Dataset.rename(newName)` (`dataset.ts`): 404 maps to
`DatasetNotFoundError(token)`, other non-2xx to
`GagaraError('Failed to rename', res.status)`; 2xx returns nothing. -/
def Dataset.rename (ds : Dataset) (newName : String) :
    Except Failure Unit × List Request :=
  (match ds.fetchFn (renameRequest ds newName) with
   | Except.error _ => Except.error Failure.transport
   | Except.ok res =>
     if !res.ok then
       if res.status = 404 then
         Except.error (Failure.gagara (mkDatasetNotFoundError ds.token))
       else
         Except.error (Failure.gagara (mkGagaraError "Failed to rename" res.status none))
     else
       Except.ok (),
   [renameRequest ds newName])

/-- The request built by `Dataset.delete`: `DELETE {baseUrl}/catalog/{token}`. -/
def deleteRequest (ds : Dataset) : Request :=
  { url := ds.baseUrl ++ "/catalog/" ++ ds.token
    method := "DELETE", headers := [], body := RequestBody.empty }

/-- `Dataset.delete()` (`dataset.ts`): 404 maps to
`DatasetNotFoundError(token)`, other non-2xx to
`GagaraError('Failed to delete', res.status)`; 2xx returns nothing. -/
def Dataset.delete (ds : Dataset) :
    Except Failure Unit × List Request :=
  (match ds.fetchFn (deleteRequest ds) with
   | Except.error _ => Except.error Failure.transport
   | Except.ok res =>
     if !res.ok then
       if res.status = 404 then
         Except.error (Failure.gagara (mkDatasetNotFoundError ds.token))
       else
         Except.error (Failure.gagara (mkGagaraError "Failed to delete" res.status none))
     else
       Except.ok (),
   [deleteRequest ds])

/-- `client.ts` `ClientOptions`; the model makes the transport explicit
(the TypeScript default is the platform fetch, outside the model). -/
structure ClientOptions where
  baseUrl : String
  fetchFn : Fetch
  timeout : Option Nat

/-- The client: configuration captured by the `GagaraClient` constructor. -/
structure GagaraClient where
  baseUrl : String
  fetchFn : Fetch
  timeout : Nat

/-- `options.baseUrl.replace` with the regex of one trailing slash. -/
def stripTrailingSlash (s : String) : String :=
  if s.endsWith "/" then s.dropRight 1 else s

/-- The `GagaraClient` constructor (`client.ts`): strips one trailing slash
from the base URL and defaults the timeout to 30000 ms. -/
def GagaraClient.ofOptions (options : ClientOptions) : GagaraClient :=
  { baseUrl := stripTrailingSlash options.baseUrl
    fetchFn := options.fetchFn
    timeout := options.timeout.getD 30000 }

/-- The request built by `GagaraClient.upload`: `POST {baseUrl}/catalog`
with the raw bytes as body and name/format in headers. -/
def uploadRequest (c : GagaraClient) (name format : String) (data : List Nat) : Request :=
  { url := c.baseUrl ++ "/catalog"
    method := "POST"
    headers := [("Content-Type", "application/octet-stream"),
                ("X-Gagara-Name", name),
                ("X-Gagara-Format", format)]
    body := RequestBody.bytes data }

/-- `GagaraClient.upload(data, name, options)` (`client.ts`): the format
defaults to `'csv'`; on non-2xx the error body is parsed tolerantly and
`GagaraError(errorBody?.error ?? ` the template `Upload failed: ${res.status}`
`, res.status, errorBody)` is thrown; on 2xx a `Dataset` is constructed
from the parsed body's `token` field.  `result.token` is stored as the
string it coerces to at every use site (`jsToString`). -/
def GagaraClient.upload (c : GagaraClient) (data : List Nat) (name : String)
    (formatOption : Option String) :
    Except Failure Dataset × List Request :=
  let format := formatOption.getD "csv"
  (match c.fetchFn (uploadRequest c name format data) with
   | Except.error _ => Except.error Failure.transport
   | Except.ok res =>
     if !res.ok then
       let errorBody := parseError res
       Except.error (Failure.gagara
         (mkGagaraError (errMessage errorBody ("Upload failed: " ++ toString res.status))
           res.status errorBody))
     else
       match res.body with
       | none => Except.error Failure.jsonParse
       | some result =>
         Except.ok { token := jsToString (Json.getField result "token")
                     baseUrl := c.baseUrl
                     fetchFn := c.fetchFn
                     timeout := c.timeout },
   [uploadRequest c name format data])

/-- `GagaraClient.fromToken(token)` (`client.ts`): synchronous local
construction of a `Dataset`; the empty trace records that no request is
issued. -/
def GagaraClient.fromToken (c : GagaraClient) (token : String) :
    Dataset × List Request :=
  ({ token := token, baseUrl := c.baseUrl, fetchFn := c.fetchFn, timeout := c.timeout },
   [])

/-- The request built by `GagaraClient.health`: `GET {baseUrl}/health`. -/
def healthRequest (c : GagaraClient) : Request :=
  { url := c.baseUrl ++ "/health"
    method := "GET", headers := [], body := RequestBody.empty }

/-- `GagaraClient.health()` (`client.ts`): returns `res.ok`, and its
`catch` block maps any rejection of the underlying fetch (network error,
timeout abort) to `false`; the return type is a plain `Bool`, so the
operation cannot raise. -/
def GagaraClient.health (c : GagaraClient) : Bool × List Request :=
  (match c.fetchFn (healthRequest c) with
   | Except.ok res => res.ok
   | Except.error _ => false,
   [healthRequest c])

/-- The pool of pending timers: the ids currently armed, plus the id the
next `setTimeout` call will allocate. -/
structure TimerState where
  pending : List Nat
  nextId : Nat

/-- `setTimeout(...)`: arms a fresh timer and returns its id. -/
def setTimeout (st : TimerState) : Nat × TimerState :=
  (st.nextId, { pending := st.pending ++ [st.nextId], nextId := st.nextId + 1 })

/-- `clearTimeout(id)`: disarms the timer with the given id. -/
def clearTimeout (st : TimerState) (id : Nat) : TimerState :=
  { st with pending := st.pending.erase id }

/-- The private `#request` helper of both classes (`client.ts`,
`dataset.ts`), with its timer effects made explicit: `setTimeout` arms the
abort timer, then `try { return await fetch(...) } finally {
clearTimeout(timeoutId) }` runs — the `finally` clause clears the timer on
the normal-return path and on the throw path alike.  `fetchOutcome` is
what the awaited fetch does: resolve, or reject (including the abort fired
by the timer itself). -/
def requestWithTimer (fetchOutcome : Except Unit Response) (st : TimerState) :
    Except Unit Response × TimerState :=
  let armed := setTimeout st
  match fetchOutcome with
  | Except.ok res => (Except.ok res, clearTimeout armed.2 armed.1)
  | Except.error e => (Except.error e, clearTimeout armed.2 armed.1)

/-! ### Concrete fixtures used by witnesses and counterexamples -/

/-- A 2xx response whose body carries a token, as in the upload tests. -/
def okTokenResponse : Response :=
  { status := 200, body := some (Json.obj [("token", Json.str "abc123")]) }

/-- A transport that always resolves with `okTokenResponse`. -/
def okTokenFetch : Fetch := fun _ => Except.ok okTokenResponse

/-- A demonstration client over `okTokenFetch`. -/
def demoClient : GagaraClient :=
  { baseUrl := "https://gagara.test", fetchFn := okTokenFetch, timeout := 30000 }

/-- A 404 response that does carry a parseable JSON error body. -/
def res404 : Response :=
  { status := 404, body := some (Json.obj [("error", Json.str "unknown token")]) }

/-- A handle whose transport always answers with `res404`. -/
def dsMissing : Dataset :=
  { token := "missing", baseUrl := "https://gagara.test"
    fetchFn := fun _ => Except.ok res404, timeout := 30000 }

/-- A 500 response with a parseable JSON error body. -/
def res500 : Response :=
  { status := 500, body := some (Json.obj [("error", Json.str "boom")]) }

/-- A handle whose transport always answers with `res500`. -/
def dsBoom : Dataset :=
  { token := "tok", baseUrl := "https://gagara.test"
    fetchFn := fun _ => Except.ok res500, timeout := 30000 }

/-- A client whose transport always answers with `res500`. -/
def clientBoom : GagaraClient :=
  { baseUrl := "https://gagara.test", fetchFn := fun _ => Except.ok res500, timeout := 30000 }

/-! ### Claims -/

/-- C3: for every sql string and every server response, `query` returns
exactly the `rows` field of what `queryFull` returns, `queryFull` returns
the parsed response body verbatim (`columns` included), both issue the
identical request, and on failure both produce the identical error. -/
theorem query_refines_queryFull (ds : Dataset) (sql : String) :
    (ds.query sql).1
      = Except.map (fun data => Json.getField data "rows") (ds.queryFull sql).1
    ∧ (ds.query sql).2 = (ds.queryFull sql).2
    ∧ (∀ res data, ds.fetchFn (queryRequest ds sql) = Except.ok res → res.ok = true →
        res.body = some data →
        (ds.queryFull sql).1 = Except.ok data
        ∧ (ds.query sql).1 = Except.ok (Json.getField data "rows")) := by
  refine ⟨?_, rfl, ?_⟩
  · cases hf : ds.fetchFn (queryRequest ds sql) with
    | error e => simp [Dataset.query, Dataset.queryFull, hf, Except.map]
    | ok res =>
      cases hok : res.ok with
      | true =>
        cases hb : res.body <;>
          simp [Dataset.query, Dataset.queryFull, hf, hok, hb, Except.map]
      | false =>
        by_cases h404 : res.status = 404 <;>
          simp [Dataset.query, Dataset.queryFull, hf, hok, h404, Except.map]
  · intro res data hf hok hb
    constructor <;> simp [Dataset.query, Dataset.queryFull, hf, hok, hb]

/-- C3 witness: the refinement instantiated on a concrete handle and query. -/
theorem query_refines_queryFull_witness :
    (dsBoom.query "SELECT 1").1
      = Except.map (fun data => Json.getField data "rows") (dsBoom.queryFull "SELECT 1").1 :=
  (query_refines_queryFull dsBoom "SELECT 1").1

/-- C7: `health()` returns `true` iff the transport resolves the liveness
request with a 2xx response; every transport rejection (network failure,
timeout abort) yields `false`; the result type is a plain `Bool`, so the
operation never raises. -/
theorem health_true_iff_2xx (c : GagaraClient) :
    ((c.health).1 = true ↔
      ∃ res, c.fetchFn (healthRequest c) = Except.ok res ∧ res.ok = true)
    ∧ (∀ e, c.fetchFn (healthRequest c) = Except.error e → (c.health).1 = false) := by
  constructor
  · constructor
    · intro h
      cases hf : c.fetchFn (healthRequest c) with
      | ok res => exact ⟨res, rfl, by simpa [GagaraClient.health, hf] using h⟩
      | error e => simp [GagaraClient.health, hf] at h
    · rintro ⟨res, hf, hok⟩
      simp [GagaraClient.health, hf, hok]
  · intro e hf
    simp [GagaraClient.health, hf]

/-- C7 witness: against a transport that always resolves 200, `health()`
returns `true`. -/
theorem health_true_iff_2xx_witness : (demoClient.health).1 = true :=
  (health_true_iff_2xx demoClient).1.2 ⟨okTokenResponse, rfl, rfl⟩

/-- C8: `fromToken(t)` issues no network traffic — its request trace is
empty — and the returned handle's token is exactly `t`. -/
theorem fromToken_no_network_exact_token (c : GagaraClient) (t : String) :
    (c.fromToken t).1.token = t ∧ (c.fromToken t).2 = [] :=
  ⟨rfl, rfl⟩

/-- C8 witness: the property instantiated on a concrete client and token. -/
theorem fromToken_no_network_exact_token_witness :
    (demoClient.fromToken "tok-1").1.token = "tok-1"
    ∧ (demoClient.fromToken "tok-1").2 = [] :=
  fromToken_no_network_exact_token demoClient "tok-1"

/-- C9: the `#request` helper arms the timeout timer at call start
(the fresh id is pending while the fetch runs) and disarms it on every
exit path — the pending pool after the call equals the pool before it,
whether the fetch resolves or rejects — while passing the fetch outcome
through unchanged. -/
theorem request_timer_armed_then_disarmed (st : TimerState)
    (outcome : Except Unit Response) (h : st.nextId ∉ st.pending) :
    (setTimeout st).1 ∈ (setTimeout st).2.pending
    ∧ (requestWithTimer outcome st).2.pending = st.pending
    ∧ (requestWithTimer outcome st).1 = outcome := by
  refine ⟨?_, ?_, ?_⟩
  · simp [setTimeout]
  · cases outcome <;>
      simp [requestWithTimer, setTimeout, clearTimeout, List.erase_append_right, h]
  · cases outcome <;> rfl

/-- C9 witness: no timer is leaked on a concrete state and a rejected fetch. -/
theorem request_timer_armed_then_disarmed_witness :
    (5 : Nat) ∉ ([1, 3] : List Nat)
    ∧ ((setTimeout { pending := [1, 3], nextId := 5 }).1
        ∈ (setTimeout { pending := [1, 3], nextId := 5 }).2.pending
      ∧ (requestWithTimer (Except.error ()) { pending := [1, 3], nextId := 5 }).2.pending
          = [1, 3]
      ∧ (requestWithTimer (Except.error ()) { pending := [1, 3], nextId := 5 }).1
          = Except.error ()) :=
  ⟨by decide,
   request_timer_armed_then_disarmed { pending := [1, 3], nextId := 5 }
     (Except.error ()) (by decide)⟩

/-- C1: on every token-scoped operation except the presence check, a 404
response raises `DatasetNotFoundError` whose message names the handle's
token, and any other non-2xx response raises a `QueryError` (query
endpoints) or a plain `GagaraError` (the rest) — never a not-found
error. -/
theorem tokenScoped_404_maps_to_notFound (ds : Dataset) (res : Response)
    (sql newName : String)
    (hf : ds.fetchFn = fun _ => Except.ok res) (hok : res.ok = false) :
    (res.status = 404 →
       errOf (ds.query sql).1 = some (mkDatasetNotFoundError ds.token)
       ∧ errOf (ds.queryFull sql).1 = some (mkDatasetNotFoundError ds.token)
       ∧ errOf (ds.schema).1 = some (mkDatasetNotFoundError ds.token)
       ∧ errOf (ds.meta).1 = some (mkDatasetNotFoundError ds.token)
       ∧ errOf (ds.rename newName).1 = some (mkDatasetNotFoundError ds.token)
       ∧ errOf (ds.delete).1 = some (mkDatasetNotFoundError ds.token)
       ∧ (mkDatasetNotFoundError ds.token).message = "Dataset not found: " ++ ds.token)
    ∧ (res.status ≠ 404 →
       errOf (ds.query sql).1
           = some (mkQueryError (errMessage res.body "Query failed") res.body)
       ∧ errOf (ds.queryFull sql).1
           = some (mkQueryError (errMessage res.body "Query failed") res.body)
       ∧ errOf (ds.schema).1 = some (mkGagaraError "Failed to get schema" res.status none)
       ∧ errOf (ds.meta).1 = some (mkGagaraError "Failed to get metadata" res.status none)
       ∧ errOf (ds.rename newName).1
           = some (mkGagaraError "Failed to rename" res.status none)
       ∧ errOf (ds.delete).1 = some (mkGagaraError "Failed to delete" res.status none)
       ∧ (mkQueryError (errMessage res.body "Query failed") res.body).name
           ≠ "DatasetNotFoundError"
       ∧ (mkGagaraError "Failed to get schema" res.status none).name
           ≠ "DatasetNotFoundError") := by
  constructor
  · intro h404
    refine ⟨?_, ?_, ?_, ?_, ?_, ?_, rfl⟩ <;>
      simp [Dataset.query, Dataset.queryFull, Dataset.schema, Dataset.meta,
            Dataset.rename, Dataset.delete, hf, hok, h404, errOf, parseError]
  · intro h404
    refine ⟨?_, ?_, ?_, ?_, ?_, ?_, ?_, ?_⟩
    case _ => simp [Dataset.query, hf, hok, h404, errOf, parseError]
    case _ => simp [Dataset.queryFull, hf, hok, h404, errOf, parseError]
    case _ => simp [Dataset.schema, hf, hok, h404, errOf]
    case _ => simp [Dataset.meta, hf, hok, h404, errOf]
    case _ => simp [Dataset.rename, hf, hok, h404, errOf]
    case _ => simp [Dataset.delete, hf, hok, h404, errOf]
    case _ => simp [mkQueryError, mkGagaraError]
    case _ => simp [mkGagaraError]

/-- C1 witness: a transport answering 404 with a JSON error body makes
`query` and the other token-scoped operations raise the not-found error
for the handle's token. -/
theorem tokenScoped_404_maps_to_notFound_witness :
    errOf (dsMissing.query "SELECT 1").1 = some (mkDatasetNotFoundError "missing")
    ∧ errOf (dsMissing.schema).1 = some (mkDatasetNotFoundError "missing")
    ∧ errOf (dsMissing.delete).1 = some (mkDatasetNotFoundError "missing") :=
  ⟨((tokenScoped_404_maps_to_notFound dsMissing res404 "SELECT 1" "n" rfl rfl).1 rfl).1,
   ((tokenScoped_404_maps_to_notFound dsMissing res404 "SELECT 1" "n" rfl rfl).1 rfl).2.2.1,
   ((tokenScoped_404_maps_to_notFound dsMissing res404 "SELECT 1" "n" rfl rfl).1 rfl).2.2.2.2.2.1⟩

/-- C10: every dataset-not-found error has status exactly 404, message
exactly `"Dataset not found: "` followed by the token, and an absent
structured body — even when the 404 response carried a parseable JSON
error body (the query endpoints parse that body and then discard it). -/
theorem notFound_error_shape (ds : Dataset) (res : Response) (sql newName : String)
    (hf : ds.fetchFn = fun _ => Except.ok res) (hok : res.ok = false)
    (h404 : res.status = 404) :
    (∀ tok, mkDatasetNotFoundError tok
        = { name := "DatasetNotFoundError"
            message := "Dataset not found: " ++ tok
            status := 404
            body := none })
    ∧ (ds.query sql).1 = Except.error (Failure.gagara (mkDatasetNotFoundError ds.token))
    ∧ (ds.queryFull sql).1 = Except.error (Failure.gagara (mkDatasetNotFoundError ds.token))
    ∧ (ds.schema).1 = Except.error (Failure.gagara (mkDatasetNotFoundError ds.token))
    ∧ (ds.meta).1 = Except.error (Failure.gagara (mkDatasetNotFoundError ds.token))
    ∧ (ds.rename newName).1 = Except.error (Failure.gagara (mkDatasetNotFoundError ds.token))
    ∧ (ds.delete).1 = Except.error (Failure.gagara (mkDatasetNotFoundError ds.token))
    ∧ (mkDatasetNotFoundError ds.token).body = none := by
  refine ⟨fun tok => rfl, ?_, ?_, ?_, ?_, ?_, ?_, rfl⟩ <;>
    simp [Dataset.query, Dataset.queryFull, Dataset.schema, Dataset.meta,
          Dataset.rename, Dataset.delete, hf, hok, h404]

/-- C10 witness: the 404 response `res404` carries the parseable body
`{error: "unknown token"}`, yet the raised error's body is absent. -/
theorem notFound_error_shape_witness :
    res404.body = some (Json.obj [("error", Json.str "unknown token")])
    ∧ (dsMissing.query "SELECT 1").1
        = Except.error (Failure.gagara (mkDatasetNotFoundError "missing"))
    ∧ (mkDatasetNotFoundError "missing").body = none :=
  ⟨rfl,
   (notFound_error_shape dsMissing res404 "SELECT 1" "n" rfl rfl rfl).2.1,
   (notFound_error_shape dsMissing res404 "SELECT 1" "n" rfl rfl rfl).2.2.2.2.2.2.2⟩

/-- C2 counterexample: `dsBoom`'s transport answers status 500, yet the
error raised by `query` carries status 400 — the `QueryError` constructor
hardcodes 400 (`types.ts`), so the raised status differs from the
response status. -/
theorem queryError_status_not_response_status :
    (errOf (dsBoom.query "SELECT 1").1).map GagaraErrorData.status = some 400
    ∧ res500.status = 500
    ∧ (400 : Nat) ≠ 500 :=
  ⟨rfl, rfl, by decide⟩

/-- C2 amended: upload errors, presence-check errors and the generic
errors of schema/meta/rename/delete carry the causing response's status,
and not-found errors carry 404 (which is the causing status); but the
query error raised for a non-2xx, non-404 response to `query`/`queryFull`
always carries status 400, whatever the response status was. -/
theorem error_status_amended (ds : Dataset) (c : GagaraClient) (res : Response)
    (sql newName name : String) (data : List Nat) (formatOption : Option String)
    (hfd : ds.fetchFn = fun _ => Except.ok res)
    (hfc : c.fetchFn = fun _ => Except.ok res)
    (hok : res.ok = false) :
    (errOf (c.upload data name formatOption).1).map GagaraErrorData.status = some res.status
    ∧ (errOf (ds.isPresent).1).map GagaraErrorData.status = some res.status
    ∧ (res.status = 404 →
        (errOf (ds.query sql).1).map GagaraErrorData.status = some 404
        ∧ (errOf (ds.queryFull sql).1).map GagaraErrorData.status = some 404
        ∧ (errOf (ds.schema).1).map GagaraErrorData.status = some 404
        ∧ (errOf (ds.meta).1).map GagaraErrorData.status = some 404
        ∧ (errOf (ds.rename newName).1).map GagaraErrorData.status = some 404
        ∧ (errOf (ds.delete).1).map GagaraErrorData.status = some 404)
    ∧ (res.status ≠ 404 →
        (errOf (ds.query sql).1).map GagaraErrorData.status = some 400
        ∧ (errOf (ds.queryFull sql).1).map GagaraErrorData.status = some 400
        ∧ (errOf (ds.schema).1).map GagaraErrorData.status = some res.status
        ∧ (errOf (ds.meta).1).map GagaraErrorData.status = some res.status
        ∧ (errOf (ds.rename newName).1).map GagaraErrorData.status = some res.status
        ∧ (errOf (ds.delete).1).map GagaraErrorData.status = some res.status) := by
  refine ⟨?_, ?_, ?_, ?_⟩
  · simp [GagaraClient.upload, hfc, hok, errOf, parseError, mkGagaraError]
  · simp [Dataset.isPresent, hfd, hok, errOf, mkGagaraError]
  · intro h404
    refine ⟨?_, ?_, ?_, ?_, ?_, ?_⟩ <;>
      simp [Dataset.query, Dataset.queryFull, Dataset.schema, Dataset.meta,
            Dataset.rename, Dataset.delete, hfd, hok, h404, errOf,
            mkDatasetNotFoundError, mkGagaraError]
  · intro h404
    refine ⟨?_, ?_, ?_, ?_, ?_, ?_⟩ <;>
      simp [Dataset.query, Dataset.queryFull, Dataset.schema, Dataset.meta,
            Dataset.rename, Dataset.delete, hfd, hok, h404, errOf,
            mkQueryError, mkGagaraError]

/-- C2 amended witness: a 500 response makes `query` raise status 400 and
`schema` raise status 500. -/
theorem error_status_amended_witness :
    (errOf (dsBoom.query "SELECT 1").1).map GagaraErrorData.status = some 400
    ∧ (errOf (dsBoom.schema).1).map GagaraErrorData.status = some 500 :=
  ⟨((error_status_amended dsBoom clientBoom res500 "SELECT 1" "n" "n" [] none rfl
      rfl rfl).2.2.2 (by decide)).1,
   ((error_status_amended dsBoom clientBoom res500 "SELECT 1" "n" "n" [] none rfl
      rfl rfl).2.2.2 (by decide)).2.2.1⟩

/-- C4: when the upload request resolves with a 2xx response whose body
holds the string `tok` in its `token` field, `upload` returns a handle
whose token is exactly `tok` (and whose configuration is the client's,
untransformed). -/
theorem upload_token_verbatim (c : GagaraClient) (data : List Nat) (name : String)
    (formatOption : Option String) (res : Response) (body : Json) (tok : String)
    (hf : c.fetchFn (uploadRequest c name (formatOption.getD "csv") data) = Except.ok res)
    (hok : res.ok = true)
    (hbody : res.body = some body)
    (htok : Json.getField body "token" = some (Json.str tok)) :
    (c.upload data name formatOption).1
      = Except.ok { token := tok, baseUrl := c.baseUrl
                    fetchFn := c.fetchFn, timeout := c.timeout } := by
  simp [GagaraClient.upload, hf, hok, hbody, htok, jsToString, Json.toMessage]

/-- C4 witness: uploading against a transport answering 200 with
`{token: "abc123"}` yields a handle whose token is `"abc123"`. -/
theorem upload_token_verbatim_witness :
    ((demoClient.upload [1, 2] "sales-data" none).1).map Dataset.token
      = Except.ok "abc123" := by
  rw [upload_token_verbatim demoClient [1, 2] "sales-data" none okTokenResponse
        (Json.obj [("token", Json.str "abc123")]) "abc123" rfl rfl rfl rfl]
  rfl

/-- C5: when the upload request resolves with a non-2xx response of status
`s`, `upload` raises a plain `GagaraError` carrying status `s` and the
parsed error body; its message is the body's `error` field when present
and `"Upload failed: <s>"` otherwise; a non-JSON or empty body does not
crash the call but yields an absent error payload. -/
theorem upload_error_mapping (c : GagaraClient) (data : List Nat) (name : String)
    (formatOption : Option String) (res : Response)
    (hf : c.fetchFn (uploadRequest c name (formatOption.getD "csv") data) = Except.ok res)
    (hok : res.ok = false) :
    errOf (c.upload data name formatOption).1
      = some (mkGagaraError (errMessage res.body ("Upload failed: " ++ toString res.status))
          res.status res.body)
    ∧ (∀ msg, jsField res.body "error" = some (Json.str msg) →
        errMessage res.body ("Upload failed: " ++ toString res.status) = msg)
    ∧ (jsField res.body "error" = none →
        errMessage res.body ("Upload failed: " ++ toString res.status)
          = "Upload failed: " ++ toString res.status)
    ∧ (res.body = none →
        errOf (c.upload data name formatOption).1
          = some (mkGagaraError ("Upload failed: " ++ toString res.status)
              res.status none)) := by
  refine ⟨?_, ?_, ?_, ?_⟩
  · simp [GagaraClient.upload, hf, hok, errOf, parseError]
  · intro msg hmsg
    simp [errMessage, hmsg, Json.toMessage]
  · intro hnone
    simp [errMessage, hnone]
  · intro hnone
    simp [GagaraClient.upload, hf, hok, errOf, parseError, hnone,
          errMessage, jsField]

/-- C5 witness: a 500 upload response with body `{error: "boom"}` raises a
`GagaraError` with status 500, message `"boom"` and that body attached. -/
theorem upload_error_mapping_witness :
    errOf (clientBoom.upload [1, 2] "sales-data" none).1
      = some (mkGagaraError "boom" 500 (some (Json.obj [("error", Json.str "boom")]))) :=
  (upload_error_mapping clientBoom [1, 2] "sales-data" none res500 rfl rfl).1

/-- C6: `isPresent()` has no 404 branch: every non-2xx response — 404
included — raises the plain `GagaraError` with message
`"Failed to check presence"` and the response's status, never a not-found
error; on 2xx it returns the body's `isPresent` field. -/
theorem isPresent_no_404_special_case (ds : Dataset) (res : Response)
    (hf : ds.fetchFn (isPresentRequest ds) = Except.ok res) :
    (res.ok = false →
       (ds.isPresent).1
         = Except.error (Failure.gagara
             (mkGagaraError "Failed to check presence" res.status none))
       ∧ (mkGagaraError "Failed to check presence" res.status none).name
           ≠ "DatasetNotFoundError")
    ∧ (res.ok = true → ∀ data, res.body = some data →
        (ds.isPresent).1 = Except.ok (Json.getField data "isPresent")) := by
  constructor
  · intro hok
    refine ⟨?_, ?_⟩
    · simp [Dataset.isPresent, hf, hok]
    · simp [mkGagaraError]
  · intro hok data hbody
    simp [Dataset.isPresent, hf, hok, hbody]

/-- C6 witness: a 404 answer to the presence check raises the generic
presence error with status 404 — not the not-found error. -/
theorem isPresent_no_404_special_case_witness :
    (dsMissing.isPresent).1
      = Except.error (Failure.gagara (mkGagaraError "Failed to check presence" 404 none))
    ∧ (mkGagaraError "Failed to check presence" 404 none).name ≠ "DatasetNotFoundError" :=
  (isPresent_no_404_special_case dsMissing res404 rfl).1 rfl

end Gagara
